import Mathlib

/-!
Verification of `src/debug-host.py`, a diagnostic script that prints host
platform identification facts.

The script is a straight-line Python program:

  print("=== Host Detection Debug ===")
  print(f"Python platform.system(): {platform.system()}")
  print(f"Python platform.machine(): {platform.machine()}")
  print(f"Python platform.platform(): {platform.platform()}")
  print(f"Python sys.platform: {sys.platform}")
  print(f"OS uname: {os.uname()}")
  print(f"Environment OSTYPE: {os.environ.get('OSTYPE', 'not set')}")
  print("\n=== Virtualization Check ===")
  print(f"/proc exists: {os.path.exists('/proc')}")
  ... (six more path checks) ...
  print("\n=== Manual Meson Check ===")
  print("Try running: python3 -c \"import platform; print(platform.system())\"")

We embed the host's observable state as a structure `Host`:
platform query results are strings, `os.uname()` is an `Option UnameTuple`
(`none` models a host whose OS does not support the uname call, in which
case Python raises `OSError`, uncaught, terminating the script with exit
code 1 and a traceback on stderr), the environment is a partial map
`String → Option String`, and `os.path.exists` is a total function
`String → Bool` (it never raises: per the CPython contract a path that
cannot be inspected, e.g. for permission reasons, yields `False`; a host
where a path is unreadable is therefore a `Host` whose `pathExists` is
`false` at that path).

The run of the script is modelled as a list of `Effect`s (host queries and
writes to stdout/stderr), from which stdout, stderr and the exit code are
derived.  `print(s)` where `s` contains no newline contributes one stdout
line; the two `print("\n=== ...")` calls each contribute an empty line
followed by the header line.
-/

namespace DebugHost

/-- The five fields of the tuple returned by `os.uname()`. -/
structure UnameTuple where
  sysname : String
  nodename : String
  release : String
  version : String
  machine : String
deriving DecidableEq

/-- A single quote character, used by Python's repr of strings. -/
def sq : String := String.singleton (Char.ofNat 39)

/-- How Python formats `os.uname()` inside an f-string: the repr of a
`posix.uname_result` named tuple.  (Repr escaping of special characters
inside the field values is elided; the values are host identification
strings.) -/
def unameRepr (u : UnameTuple) : String :=
  "posix.uname_result(sysname=" ++ sq ++ u.sysname ++ sq ++
  ", nodename=" ++ sq ++ u.nodename ++ sq ++
  ", release=" ++ sq ++ u.release ++ sq ++
  ", version=" ++ sq ++ u.version ++ sq ++
  ", machine=" ++ sq ++ u.machine ++ sq ++ ")"

/-- The observable host state the script consults. -/
structure Host where
  /-- `platform.system()` -/
  platformSystem : String
  /-- `platform.machine()` -/
  platformMachine : String
  /-- `platform.platform()` -/
  platformPlatform : String
  /-- `sys.platform` -/
  sysPlatform : String
  /-- `os.uname()`: `none` when the OS does not support the call. -/
  unameResult : Option UnameTuple
  /-- `os.environ`: lookup by exact key. -/
  environ : String → Option String
  /-- `os.path.exists`: total, never raises. -/
  pathExists : String → Bool

/-- Python's `str` of a boolean, as interpolated into the f-strings. -/
def pyBool (b : Bool) : String := if b then "True" else "False"

/-- The fixed list of probed paths, in the order the script checks them. -/
def pathList : List String :=
  ["/proc", "/sys", "/run", "/lib64", "/System", "/Applications", "/usr/lib/dyld"]

/-- The line printed for one path-existence check. -/
def pathLine (h : Host) (p : String) : String :=
  p ++ " exists: " ++ pyBool (h.pathExists p)

/-- The line printed for `os.environ.get('OSTYPE', 'not set')`. -/
def envLookupLine (env : String → Option String) : String :=
  "Environment OSTYPE: " ++ (env "OSTYPE").getD "not set"

/-- An observable action of the script.  `writeFile` and `setEnv` are the
host-mutating actions expressible in this effect language; the script
performs neither. -/
inductive Effect where
  | printOut (s : String)
  | printErr (s : String)
  | queryPlatform (what : String)
  | querySysPlatform
  | unameCall
  | readEnv (key : String)
  | checkPath (p : String)
  | writeFile (p : String) (contents : String)
  | setEnv (key : String) (value : String)
deriving DecidableEq

/-- Does the effect mutate host state? -/
def Effect.mutatesHost : Effect → Bool
  | .writeFile _ _ => true
  | .setEnv _ _ => true
  | _ => false

/-- Is the effect a read-only query of host state? -/
def Effect.isHostQuery : Effect → Bool
  | .queryPlatform _ => true
  | .querySysPlatform => true
  | .unameCall => true
  | .readEnv _ => true
  | .checkPath _ => true
  | _ => false

/-- Is the effect a write to stdout or stderr? -/
def Effect.isOutput : Effect → Bool
  | .printOut _ => true
  | .printErr _ => true
  | _ => false

/-- Is the effect a write to stderr? -/
def Effect.isStderr : Effect → Bool
  | .printErr _ => true
  | _ => false

/-- The stdout line an effect contributes, if any. -/
def Effect.outputLine : Effect → Option String
  | .printOut s => some s
  | _ => none

/-- The stderr line an effect contributes, if any. -/
def Effect.errLine : Effect → Option String
  | .printErr s => some s
  | _ => none

/-- How an effect acts on host state: the two mutating effects update the
corresponding component; every other effect leaves the host unchanged. -/
def Effect.applyHost : Effect → Host → Host
  | .writeFile p _, h =>
      { h with pathExists := fun q => if q = p then true else h.pathExists q }
  | .setEnv k v, h =>
      { h with environ := fun x => if x = k then some v else h.environ x }
  | _, h => h

/-- The first five stdout lines, printed before the `os.uname()` call. -/
def headerLines (h : Host) : List String :=
  ["=== Host Detection Debug ===",
   "Python platform.system(): " ++ h.platformSystem,
   "Python platform.machine(): " ++ h.platformMachine,
   "Python platform.platform(): " ++ h.platformPlatform,
   "Python sys.platform: " ++ h.sysPlatform]

/-- The effect trace of one run of the script on host `h`.  Each f-string
evaluates its queries before the corresponding print.  If `os.uname()` is
unsupported the raised `OSError` is uncaught: the script stops there, and
the interpreter prints a traceback to stderr. -/
def trace (h : Host) : List Effect :=
  [.printOut "=== Host Detection Debug ===",
   .queryPlatform "system",
   .printOut ("Python platform.system(): " ++ h.platformSystem),
   .queryPlatform "machine",
   .printOut ("Python platform.machine(): " ++ h.platformMachine),
   .queryPlatform "platform",
   .printOut ("Python platform.platform(): " ++ h.platformPlatform),
   .querySysPlatform,
   .printOut ("Python sys.platform: " ++ h.sysPlatform),
   .unameCall] ++
  match h.unameResult with
  | none =>
      [.printErr "Traceback (most recent call last):",
       .printErr "OSError: [Errno 38] Function not implemented"]
  | some u =>
      [.printOut ("OS uname: " ++ unameRepr u),
       .readEnv "OSTYPE",
       .printOut (envLookupLine h.environ),
       .printOut "",
       .printOut "=== Virtualization Check ===",
       .checkPath "/proc",
       .printOut (pathLine h "/proc"),
       .checkPath "/sys",
       .printOut (pathLine h "/sys"),
       .checkPath "/run",
       .printOut (pathLine h "/run"),
       .checkPath "/lib64",
       .printOut (pathLine h "/lib64"),
       .checkPath "/System",
       .printOut (pathLine h "/System"),
       .checkPath "/Applications",
       .printOut (pathLine h "/Applications"),
       .checkPath "/usr/lib/dyld",
       .printOut (pathLine h "/usr/lib/dyld"),
       .printOut "",
       .printOut "=== Manual Meson Check ===",
       .printOut "Try running: python3 -c \"import platform; print(platform.system())\""]

/-- The stdout of one run, as a list of lines. -/
def stdoutLines (h : Host) : List String :=
  (trace h).filterMap Effect.outputLine

/-- The stderr of one run, as a list of lines. -/
def stderrLines (h : Host) : List String :=
  (trace h).filterMap Effect.errLine

/-- The exit code of one run: 0 on success, 1 (CPython's code for an
uncaught exception) when `os.uname()` is unsupported. -/
def exitCode (h : Host) : Nat :=
  match h.unameResult with
  | none => 1
  | some _ => 0

/-- The observable result of one run: stdout lines and exit code. -/
structure RunResult where
  output : List String
  exitCode : Nat
deriving DecidableEq

/-- One run of the script on host `h`. -/
def run (h : Host) : RunResult :=
  ⟨stdoutLines h, exitCode h⟩

/-- The script never reads `sys.argv`: invoked with arguments, it behaves
exactly as `run`. -/
def runWithArgs (h : Host) (_args : List String) : RunResult :=
  run h

/-- The final host state after one run: the trace's effects applied in
order. -/
def finalHost (h : Host) : Host :=
  (trace h).foldl (fun st e => e.applyHost st) h

/-- A concrete Linux-like host used for witnesses. -/
def sampleUname : UnameTuple :=
  ⟨"Linux", "buildbox", "6.1.0", "#1 SMP", "x86_64"⟩

/-- A concrete Linux-like host: uname supported, `OSTYPE` unset, `/proc`,
`/sys`, `/run` and `/lib64` present, the macOS paths absent. -/
def sampleHost : Host where
  platformSystem := "Linux"
  platformMachine := "x86_64"
  platformPlatform := "Linux-6.1.0-x86_64-with-glibc2.36"
  sysPlatform := "linux"
  unameResult := some sampleUname
  environ := fun _ => none
  pathExists := fun p => p = "/proc" || p = "/sys" || p = "/run" || p = "/lib64"

end DebugHost

namespace DebugHost

/-- **C1.** On any host where the uname call is supported (so the script
reaches the environment-variable report): if `OSTYPE` is unset, the stdout
contains the line with the fixed placeholder `not set` and the script
exits 0 (it does not fail); if `OSTYPE` is set to any value `x`, the
stdout contains the line carrying `x`. -/
theorem ostype_report (h : Host) (u : UnameTuple) (hu : h.unameResult = some u) :
    (h.environ "OSTYPE" = none →
      "Environment OSTYPE: not set" ∈ (run h).output) ∧
    (∀ x : String, h.environ "OSTYPE" = some x →
      ("Environment OSTYPE: " ++ x) ∈ (run h).output) ∧
    (run h).exitCode = 0 := by
  refine ⟨fun hnone => ?_, fun x hx => ?_, ?_⟩
  · simp [run, stdoutLines, trace, hu, envLookupLine, hnone, Effect.outputLine]
  · simp [run, stdoutLines, trace, hu, envLookupLine, hx, Effect.outputLine]
  · simp [run, exitCode, hu]

/-- **C1 witness**: on the sample host (OSTYPE unset) the placeholder line
is in the output. -/
theorem ostype_report_witness :
    "Environment OSTYPE: not set" ∈ (run sampleHost).output :=
  (ostype_report sampleHost sampleUname rfl).1 rfl

/-- **C2.** End-to-end: on a host where `/proc` exists and `/System` does
not (and the uname call is supported so the script reaches the path
checks), the output contains the lines `/proc exists: True` and
`/System exists: False`. -/
theorem virtualization_lines (h : Host) (u : UnameTuple)
    (hu : h.unameResult = some u)
    (hp : h.pathExists "/proc" = true) (hs : h.pathExists "/System" = false) :
    "/proc exists: True" ∈ (run h).output ∧
    "/System exists: False" ∈ (run h).output := by
  constructor <;>
    simp [run, stdoutLines, trace, hu, pathLine, pyBool, hp, hs, Effect.outputLine]

/-- **C2 witness**: the sample host has `/proc` and lacks `/System`. -/
theorem virtualization_lines_witness :
    "/proc exists: True" ∈ (run sampleHost).output ∧
    "/System exists: False" ∈ (run sampleHost).output :=
  virtualization_lines sampleHost sampleUname rfl rfl rfl

/-- **C3.** For every path in the fixed list, the output (of a run that
reaches the path checks, i.e. uname is supported) contains the line
reporting `True` when the path exists and `False` when it does not, and
the run exits 0 whatever the path-existence facts are.  (`os.path.exists`
is embedded as the total function `Host.pathExists`: per the CPython
contract it never raises, reporting a path unreadable for permission
reasons as `False`.) -/
theorem path_report (h : Host) (u : UnameTuple) (hu : h.unameResult = some u) :
    (∀ p ∈ pathList,
      (p ++ " exists: " ++ (if h.pathExists p then "True" else "False"))
        ∈ (run h).output) ∧
    (run h).exitCode = 0 := by
  constructor
  · intro p hp
    fin_cases hp <;>
      simp [run, stdoutLines, trace, hu, pathLine, pyBool, Effect.outputLine]
  · simp [run, exitCode, hu]

/-- **C3 witness**: on the sample host every probed path gets its report
line; e.g. the `/sys` line reports `True` and the `/Applications` line
reports `False`. -/
theorem path_report_witness :
    ("/sys exists: " ++ (if sampleHost.pathExists "/sys" then "True" else "False"))
      ∈ (run sampleHost).output ∧
    (run sampleHost).exitCode = 0 :=
  ⟨(path_report sampleHost sampleUname rfl).1 "/sys" (by decide),
   (path_report sampleHost sampleUname rfl).2⟩

/-- **C4.** The uname report fails only when the host OS does not support
the call: in that case the exit code is non-zero, the stdout is exactly
the five lines printed before the call (so the OSTYPE line and every
path-existence line are absent: no `readEnv` and no `checkPath` effect
occurs), and a traceback is surfaced on stderr; on hosts that support
uname the script exits 0. -/
theorem uname_failure (h : Host) :
    (h.unameResult = none →
      (run h).exitCode ≠ 0 ∧
      (run h).output = headerLines h ∧
      (∀ k, Effect.readEnv k ∉ trace h) ∧
      (∀ p, Effect.checkPath p ∉ trace h) ∧
      stderrLines h ≠ []) ∧
    (∀ u : UnameTuple, h.unameResult = some u → (run h).exitCode = 0) := by
  constructor
  · intro hn
    refine ⟨?_, ?_, ?_, ?_, ?_⟩ <;>
      simp [run, exitCode, stdoutLines, stderrLines, trace, hn, headerLines,
        Effect.outputLine, Effect.errLine]
  · intro u hu
    simp [run, exitCode, hu]

/-- A host identical to the sample host except that `os.uname()` is
unsupported. -/
def failHost : Host := { sampleHost with unameResult := none }

/-- **C4 witness**: on the failing host the exit code is non-zero and the
output stops at the header lines; on the sample host the exit code is 0. -/
theorem uname_failure_witness :
    (run failHost).exitCode ≠ 0 ∧
    (run failHost).output = headerLines failHost ∧
    (run sampleHost).exitCode = 0 :=
  ⟨((uname_failure failHost).1 rfl).1,
   ((uname_failure failHost).1 rfl).2.1,
   (uname_failure sampleHost).2 sampleUname rfl⟩

/-- The documented labels, one per reported fact. -/
def labelList : List String :=
  ["Python platform.system(): ",
   "Python platform.machine(): ",
   "Python platform.platform(): ",
   "Python sys.platform: ",
   "OS uname: ",
   "Environment OSTYPE: ",
   "/proc exists: ",
   "/sys exists: ",
   "/run exists: ",
   "/lib64 exists: ",
   "/System exists: ",
   "/Applications exists: ",
   "/usr/lib/dyld exists: "]

/-- **C5.** On every supported host (uname available) the script exits 0
and the output contains, for each documented label, a line formed of that
label followed by the reported value — a non-empty line, since the label
itself is non-empty. -/
theorem supported_host_report (h : Host) (u : UnameTuple)
    (hu : h.unameResult = some u) :
    (run h).exitCode = 0 ∧
    ∀ label ∈ labelList, ∃ rest : String,
      (label ++ rest) ∈ (run h).output ∧ 0 < (label ++ rest).length := by
  constructor
  · simp [run, exitCode, hu]
  · intro label hl
    fin_cases hl
    · exact ⟨h.platformSystem,
        by simp [run, stdoutLines, trace, hu, Effect.outputLine],
        by simp [String.length_append]; exact Or.inl (by decide)⟩
    · exact ⟨h.platformMachine,
        by simp [run, stdoutLines, trace, hu, Effect.outputLine],
        by simp [String.length_append]; exact Or.inl (by decide)⟩
    · exact ⟨h.platformPlatform,
        by simp [run, stdoutLines, trace, hu, Effect.outputLine],
        by simp [String.length_append]; exact Or.inl (by decide)⟩
    · exact ⟨h.sysPlatform,
        by simp [run, stdoutLines, trace, hu, Effect.outputLine],
        by simp [String.length_append]; exact Or.inl (by decide)⟩
    · exact ⟨unameRepr u,
        by simp [run, stdoutLines, trace, hu, Effect.outputLine],
        by simp [String.length_append]; exact Or.inl (by decide)⟩
    · exact ⟨(h.environ "OSTYPE").getD "not set",
        by simp [run, stdoutLines, trace, hu, envLookupLine, Effect.outputLine],
        by simp [String.length_append]; exact Or.inl (by decide)⟩
    · exact ⟨pyBool (h.pathExists "/proc"),
        by simp [run, stdoutLines, trace, hu, pathLine, Effect.outputLine],
        by simp [String.length_append]; exact Or.inl (by decide)⟩
    · exact ⟨pyBool (h.pathExists "/sys"),
        by simp [run, stdoutLines, trace, hu, pathLine, Effect.outputLine],
        by simp [String.length_append]; exact Or.inl (by decide)⟩
    · exact ⟨pyBool (h.pathExists "/run"),
        by simp [run, stdoutLines, trace, hu, pathLine, Effect.outputLine],
        by simp [String.length_append]; exact Or.inl (by decide)⟩
    · exact ⟨pyBool (h.pathExists "/lib64"),
        by simp [run, stdoutLines, trace, hu, pathLine, Effect.outputLine],
        by simp [String.length_append]; exact Or.inl (by decide)⟩
    · exact ⟨pyBool (h.pathExists "/System"),
        by simp [run, stdoutLines, trace, hu, pathLine, Effect.outputLine],
        by simp [String.length_append]; exact Or.inl (by decide)⟩
    · exact ⟨pyBool (h.pathExists "/Applications"),
        by simp [run, stdoutLines, trace, hu, pathLine, Effect.outputLine],
        by simp [String.length_append]; exact Or.inl (by decide)⟩
    · exact ⟨pyBool (h.pathExists "/usr/lib/dyld"),
        by simp [run, stdoutLines, trace, hu, pathLine, Effect.outputLine],
        by simp [String.length_append]; exact Or.inl (by decide)⟩

/-- **C5 witness**: on the sample host the exit code is 0 and the
`OS uname: ` label gets its non-empty line. -/
theorem supported_host_report_witness :
    (run sampleHost).exitCode = 0 ∧
    ∃ rest : String, ("OS uname: " ++ rest) ∈ (run sampleHost).output ∧
      0 < ("OS uname: " ++ rest).length :=
  ⟨(supported_host_report sampleHost sampleUname rfl).1,
   (supported_host_report sampleHost sampleUname rfl).2 "OS uname: " (by decide)⟩

/-- **C6.** The script is deterministic given the host state: two runs on
hosts agreeing on every platform value, the uname result, the environment
and the filesystem existence facts produce the same stdout lines and exit
code. -/
theorem deterministic_run (h₁ h₂ : Host)
    (e1 : h₁.platformSystem = h₂.platformSystem)
    (e2 : h₁.platformMachine = h₂.platformMachine)
    (e3 : h₁.platformPlatform = h₂.platformPlatform)
    (e4 : h₁.sysPlatform = h₂.sysPlatform)
    (e5 : h₁.unameResult = h₂.unameResult)
    (e6 : h₁.environ = h₂.environ)
    (e7 : h₁.pathExists = h₂.pathExists) :
    run h₁ = run h₂ := by
  cases h₁; cases h₂; simp_all

/-- **C6 witness**: two runs on the unchanged sample host coincide. -/
theorem deterministic_run_witness :
    run sampleHost = run sampleHost :=
  deterministic_run sampleHost sampleHost rfl rfl rfl rfl rfl rfl rfl

/-- **C7.** Noninterference from environment variables other than
`OSTYPE`: replacing the environment of a host by any other environment
that agrees on the key `OSTYPE` leaves the run result unchanged. -/
theorem ostype_noninterference (h : Host) (e₂ : String → Option String)
    (he : h.environ "OSTYPE" = e₂ "OSTYPE") :
    run { h with environ := e₂ } = run h := by
  cases hr : h.unameResult <;>
    simp [run, stdoutLines, exitCode, trace, envLookupLine, pathLine, hr, he,
      Effect.outputLine]

/-- An environment that sets only `PATH`. -/
def envOnlyPath : String → Option String :=
  fun k => if k == "PATH" then some "/usr/bin" else none

/-- An environment that sets only `HOME`. -/
def envOnlyHome : String → Option String :=
  fun k => if k == "HOME" then some "/root" else none

/-- The sample host with `PATH` (and nothing else) in its environment. -/
def hostWithPath : Host := { sampleHost with environ := envOnlyPath }

/-- **C7 witness**: the environments setting only `PATH` and only `HOME`
agree on `OSTYPE` (both unset), and swapping one for the other leaves the
run unchanged. -/
theorem ostype_noninterference_witness :
    run { hostWithPath with environ := envOnlyHome } = run hostWithPath :=
  ostype_noninterference hostWithPath envOnlyHome (by decide)

/-- **C8.** Every operation is a read-only query: the trace applied to the
host state returns it unchanged (no file written, no environment variable
set), every effect is either a host query or terminal output, and on a
supported host the only output is stdout text. -/
theorem read_only (h : Host) :
    finalHost h = h ∧
    (∀ e ∈ trace h, e.mutatesHost = false ∧
      (e.isHostQuery = true ∨ e.isOutput = true)) ∧
    (∀ u : UnameTuple, h.unameResult = some u → stderrLines h = []) := by
  refine ⟨?_, ?_, ?_⟩
  · cases hr : h.unameResult <;>
      simp [finalHost, trace, hr, Effect.applyHost]
  · have hall : ((trace h).all fun e =>
        !e.mutatesHost && (e.isHostQuery || e.isOutput)) = true := by
      cases hr : h.unameResult <;>
        simp [trace, hr, Effect.mutatesHost, Effect.isHostQuery, Effect.isOutput]
    intro e he
    have h2 := List.all_eq_true.mp hall e he
    simp only [Bool.and_eq_true, Bool.not_eq_true', Bool.or_eq_true] at h2
    exact ⟨h2.1, h2.2⟩
  · intro u hu
    simp [stderrLines, trace, hu, Effect.errLine]

/-- **C8 witness**: a run on the sample host leaves it unchanged and
writes nothing to stderr. -/
theorem read_only_witness :
    finalHost sampleHost = sampleHost ∧ stderrLines sampleHost = [] :=
  ⟨(read_only sampleHost).1, (read_only sampleHost).2.2 sampleUname rfl⟩

/-- **C9.** The fixed placeholder shown when `OSTYPE` is absent is exactly
the literal string `not set`. -/
theorem placeholder_value (env : String → Option String)
    (he : env "OSTYPE" = none) :
    envLookupLine env = "Environment OSTYPE: not set" := by
  simp [envLookupLine, he]

/-- **C9 witness**: the empty environment shows the placeholder. -/
theorem placeholder_value_witness :
    envLookupLine (fun _ => none) = "Environment OSTYPE: not set" :=
  placeholder_value (fun _ => none) rfl

/-- **C10.** The script never inspects its command-line arguments: with
the host state fixed, any two argument lists produce the same stdout and
exit code. -/
theorem args_ignored (h : Host) (a₁ a₂ : List String) :
    runWithArgs h a₁ = runWithArgs h a₂ := rfl

end DebugHost
